import Mathlib

/-!
Verification development for the stellify-mcp adapter.

Shallow embedding of `src/index.ts` (the MCP server: tool catalogue,
CallTool/ListTools handlers, startup guard) and `src/stellify-client.ts`
(the axios-based remote API client).  JavaScript values are modelled by
`JsValue` (numbers as `Int`; floating point plays no role in any claim),
JavaScript exceptions by `Except JsError`, and the remote HTTP world by a
function from requests to outcomes.  Tool descriptions (free prose in the
source) are not needed by any claim and are omitted from `ToolDescriptor`;
names, schema property keys and required-field lists are embedded verbatim.
-/

/-- JavaScript runtime values as carried through the adapter: the argument
bags, remote response bodies and envelope payloads.  `undefined` is the
JavaScript `undefined` (absent properties evaluate to it). -/
inductive JsValue where
  | undefined : JsValue
  | null : JsValue
  | bool : Bool → JsValue
  | num : Int → JsValue
  | str : String → JsValue
  | arr : List JsValue → JsValue
  | obj : List (String × JsValue) → JsValue
deriving Repr

/-- JavaScript truthiness (`if (x)`, `x || y`): `undefined`, `null`,
`false`, `0` and the empty string are falsy; arrays and objects are always
truthy. -/
def JsValue.truthy : JsValue → Bool
  | .undefined => false
  | .null => false
  | .bool b => b
  | .num n => n != 0
  | .str s => s != ""
  | .arr _ => true
  | .obj _ => true

/-- JavaScript string coercion as used by template-literal interpolation
(`${x}`).  Arrays join their elements with commas, `null`/`undefined`
elements becoming empty (standard `Array.prototype.toString`). -/
def JsValue.jsToString : JsValue → String
  | .undefined => "undefined"
  | .null => "null"
  | .bool true => "true"
  | .bool false => "false"
  | .num n => toString n
  | .str s => s
  | .obj _ => "[object Object]"
  | .arr xs => String.intercalate ","
      (xs.attach.map fun v =>
        match v with
        | ⟨.null, _⟩ => ""
        | ⟨.undefined, _⟩ => ""
        | ⟨x, _⟩ => JsValue.jsToString x)
decreasing_by
  have h : sizeOf x < sizeOf xs := List.sizeOf_lt_of_mem (by assumption)
  simp only [JsValue.arr.sizeOf_spec]
  omega

/-- Property read on a value already known to be neither `null` nor
`undefined`: object field lookup (first binding wins; real JS objects have
unique keys), `.length` on arrays and strings, `undefined` everywhere
else. -/
def JsValue.field (v : JsValue) (k : String) : JsValue :=
  match v with
  | .obj fs => (fs.lookup k).getD .undefined
  | .arr xs => if k = "length" then .num xs.length else .undefined
  | .str s => if k = "length" then .num s.length else .undefined
  | _ => .undefined

/-- Field lookup on an object payload, `none` when the key is absent or the
value is not an object.  Used only in theorem statements to inspect
envelope bodies. -/
def JsValue.getField (v : JsValue) (k : String) : Option JsValue :=
  match v with
  | .obj fs => fs.lookup k
  | _ => none

/-- A thrown JavaScript error as observed by the dispatch catch block:
`message`, the optional `response.data` an axios HTTP error carries, and
the `toString()` form. -/
structure JsError where
  message : String
  responseData : Option JsValue
  stringForm : String
deriving Repr

/-- A TypeError raised by reading a property of `null`/`undefined`. -/
def typeError (what k : String) : JsError :=
  { message := "Cannot read properties of " ++ what ++ " (reading " ++ k ++ ")"
  , responseData := none
  , stringForm := "TypeError: Cannot read properties of " ++ what ++ " (reading " ++ k ++ ")" }

/-- Plain `.` property access: throws a TypeError on `null`/`undefined`,
otherwise reads the property. -/
def JsValue.dotThrow (v : JsValue) (k : String) : Except JsError JsValue :=
  match v with
  | .null => .error (typeError "null" k)
  | .undefined => .error (typeError "undefined" k)
  | v => .ok (v.field k)

/-- Optional-chaining `?.` access: `undefined` on `null`/`undefined`
instead of throwing. -/
def JsValue.dotOpt (v : JsValue) (k : String) : JsValue :=
  match v with
  | .null => .undefined
  | .undefined => .undefined
  | v => v.field k

/-- JavaScript `a || b` on two already-evaluated values. -/
def jsOr (a b : JsValue) : JsValue :=
  if a.truthy then a else b

/-- JavaScript `a || b` where the right operand may itself throw (it is
evaluated only when `a` is falsy). -/
def jsOrE (a : JsValue) (b : Except JsError JsValue) : Except JsError JsValue :=
  if a.truthy then .ok a else b

/-- JavaScript `a || b` where the left operand may be the absent value
(`undefined` modelled as `none`), as in `error.response?.data || error.toString()`. -/
def jsOrOpt (a : Option JsValue) (b : JsValue) : JsValue :=
  match a with
  | some v => if v.truthy then v else b
  | none => b

/-- Number of keys `Object.keys` reports; total because the dispatch code
only applies it to values that already survived a property read (so never
`null`/`undefined`). -/
def jsObjectKeysLen : JsValue → Nat
  | .obj fs => fs.length
  | .arr xs => xs.length
  | .str s => s.length
  | _ => 0

/-- The `result.data || result` unwrapping pattern: reading `.data` can
throw when `result` is `null`/`undefined`. -/
def dataOrSelf (result : JsValue) : Except JsError JsValue := do
  let d ← result.dotThrow "data"
  pure (jsOr d result)

/-- JavaScript `o || d` on an optional string (`page || "null"` in
`deleteElement`): the empty string is falsy. -/
def strOr (o : Option String) (d : String) : String :=
  match o with
  | some s => if s = "" then d else s
  | none => d

/-- Rest fields of an object destructuring `const { k, ...rest } = v`. -/
def objRest (v : JsValue) (k : String) : List (String × JsValue) :=
  match v with
  | .obj fs => fs.filter fun p => p.1 != k
  | _ => []

/- The HTTP layer: requests built by the client, and the remote world. -/

inductive HttpMethod where
  | get
  | post
  | put
  | delete
deriving Repr, DecidableEq

/-- One outbound HTTP request as assembled by the axios instance: method,
full URL (base URL ++ path), the instance headers, an optional JSON body
and optional query parameters. -/
structure HttpRequest where
  method : HttpMethod
  url : String
  headers : List (String × String)
  body : Option JsValue
  params : Option JsValue
deriving Repr

/-- What a single HTTP exchange produces on the wire: a response with some
status and body, or a transport-level failure. -/
inductive HttpOutcome where
  | response (status : Nat) (data : JsValue)
  | networkFailure (msg : String)

/-- The remote collaborator, modelled as a function from requests to wire
outcomes; each invocation quantifies over its own world. -/
def World : Type := HttpRequest → HttpOutcome

/-- The axios error thrown for a non-2xx response (`validateStatus`
default: `200 <= status < 300`), carrying the response body. -/
def axiosHttpError (status : Nat) (data : JsValue) : JsError :=
  { message := "Request failed with status code " ++ toString status
  , responseData := some data
  , stringForm := "AxiosError: Request failed with status code " ++ toString status }

/-- The axios error thrown for a transport failure (no response). -/
def networkError (msg : String) : JsError :=
  { message := msg, responseData := none, stringForm := "AxiosError: " ++ msg }

/-- One axios exchange: `2xx` resolves with the parsed body
(`response.data`), anything else rejects. -/
def axiosExec (w : World) (req : HttpRequest) : Except JsError JsValue :=
  match w req with
  | .response status data =>
      if 200 ≤ status ∧ status < 300 then .ok data
      else .error (axiosHttpError status data)
  | .networkFailure m => .error (networkError m)

/- The StellifyClient (src/stellify-client.ts): an axios instance whose
base URL and headers are fixed at construction. -/

structure StellifyConfig where
  apiUrl : String
  apiToken : String

/-- The axios instance state created in the `StellifyClient` constructor:
base URL from config, and the three headers with the bearer credential. -/
structure StellifyClient where
  baseURL : String
  headers : List (String × String)

/-- The `StellifyClient` constructor: `axios.create` with the bearer
credential attached once, here. -/
def StellifyClient.ofConfig (config : StellifyConfig) : StellifyClient :=
  { baseURL := config.apiUrl
  , headers :=
      [ ("Authorization", "Bearer " ++ config.apiToken)
      , ("Content-Type", "application/json")
      , ("Accept", "application/json") ] }

/-- The single request/response exchange every client method performs:
build one request from the instance state, run it, return the parsed body
or the thrown error, plus the one-element wire trace. -/
def StellifyClient.exec (c : StellifyClient) (w : World) (m : HttpMethod)
    (path : String) (body : Option JsValue) (qp : Option JsValue) :
    Except JsError JsValue × List HttpRequest :=
  let req : HttpRequest :=
    { method := m, url := c.baseURL ++ path, headers := c.headers
    , body := body, params := qp }
  (axiosExec w req, [req])

def StellifyClient.createFile (c : StellifyClient) (w : World) (params : JsValue) :=
  c.exec w .post "/file" (some params) none

def StellifyClient.createMethod (c : StellifyClient) (w : World) (params : JsValue) :=
  c.exec w .post "/method" (some params) none

def StellifyClient.addMethodBody (c : StellifyClient) (w : World) (params : JsValue) :=
  c.exec w .post "/code" (some params) none

def StellifyClient.addStatementCode (c : StellifyClient) (w : World) (params : JsValue) :=
  c.exec w .post "/code" (some params) none

def StellifyClient.searchMethods (c : StellifyClient) (w : World) (params : JsValue) :=
  c.exec w .get "/method/search" none (some params)

def StellifyClient.searchFiles (c : StellifyClient) (w : World) (params : JsValue) :=
  c.exec w .get "/file/search" none (some params)

def StellifyClient.getFile (c : StellifyClient) (w : World) (uuid : String) :=
  c.exec w .get ("/file/" ++ uuid) none none

def StellifyClient.saveFile (c : StellifyClient) (w : World) (uuid : String) (data : JsValue) :=
  c.exec w .put ("/file/" ++ uuid) (some data) none

def StellifyClient.getMethod (c : StellifyClient) (w : World) (uuid : String) :=
  c.exec w .get ("/method/" ++ uuid) none none

def StellifyClient.saveMethod (c : StellifyClient) (w : World) (uuid : String) (data : JsValue) :=
  c.exec w .put ("/method/" ++ uuid) (some data) none

def StellifyClient.createStatement (c : StellifyClient) (w : World) (params : JsValue) :=
  c.exec w .post "/statement" (some params) none

def StellifyClient.getStatement (c : StellifyClient) (w : World) (uuid : String) :=
  c.exec w .get ("/statement/" ++ uuid) none none

def StellifyClient.saveStatement (c : StellifyClient) (w : World) (uuid : String) (data : JsValue) :=
  c.exec w .put ("/statement/" ++ uuid) (some data) none

def StellifyClient.createRoute (c : StellifyClient) (w : World) (params : JsValue) :=
  c.exec w .post "/route" (some params) none

def StellifyClient.getRoute (c : StellifyClient) (w : World) (uuid : String) :=
  c.exec w .get ("/route/" ++ uuid) none none

def StellifyClient.searchRoutes (c : StellifyClient) (w : World) (params : JsValue) :=
  c.exec w .get "/route/search" none (some params)

def StellifyClient.createElement (c : StellifyClient) (w : World) (params : JsValue) :=
  c.exec w .post "/element" (some params) none

def StellifyClient.updateElement (c : StellifyClient) (w : World) (uuid : String) (data : JsValue) :=
  c.exec w .put ("/element/" ++ uuid) (some data) none

def StellifyClient.getElement (c : StellifyClient) (w : World) (uuid : String) :=
  c.exec w .get ("/element/" ++ uuid) none none

def StellifyClient.getElementTree (c : StellifyClient) (w : World) (uuid : String) :=
  c.exec w .get ("/element/" ++ uuid ++ "/tree") none none

def StellifyClient.deleteElement (c : StellifyClient) (w : World) (uuid : String)
    (page : Option String) (current : Option String) :=
  c.exec w .delete ("/element/" ++ strOr page "null" ++ "/" ++ strOr current "null" ++ "/" ++ uuid)
    none none

def StellifyClient.searchElements (c : StellifyClient) (w : World) (params : JsValue) :=
  c.exec w .get "/element/search" none (some params)

def StellifyClient.htmlToElements (c : StellifyClient) (w : World) (params : JsValue) :=
  c.exec w .post "/html/elements" (some params) none

def StellifyClient.listGlobals (c : StellifyClient) (w : World) :=
  c.exec w .get "/globals/" none none

def StellifyClient.getGlobal (c : StellifyClient) (w : World) (uuid : String) :=
  c.exec w .get ("/globals/file/" ++ uuid) none none

def StellifyClient.installGlobal (c : StellifyClient) (w : World) (params : JsValue) :=
  c.exec w .post "/globals/install" (some params) none

def StellifyClient.searchGlobalMethods (c : StellifyClient) (w : World) (params : JsValue) :=
  c.exec w .post "/method/search-global" (some params) none

def StellifyClient.listModules (c : StellifyClient) (w : World) :=
  c.exec w .get "/modules/" none none

def StellifyClient.getModule (c : StellifyClient) (w : World) (uuid : String) :=
  c.exec w .get ("/modules/" ++ uuid) none none

def StellifyClient.createModule (c : StellifyClient) (w : World) (params : JsValue) :=
  c.exec w .post "/modules/" (some params) none

def StellifyClient.addFileToModule (c : StellifyClient) (w : World) (params : JsValue) :=
  c.exec w .post "/modules/add-file" (some params) none

def StellifyClient.removeFileFromModule (c : StellifyClient) (w : World)
    (moduleUuid fileUuid : String) :=
  c.exec w .delete ("/modules/" ++ moduleUuid ++ "/file/" ++ fileUuid) none none

def StellifyClient.installModule (c : StellifyClient) (w : World) (params : JsValue) :=
  c.exec w .post "/modules/install" (some params) none

def StellifyClient.deleteModule (c : StellifyClient) (w : World) (uuid : String) :=
  c.exec w .delete ("/modules/" ++ uuid) none none

def StellifyClient.getDirectory (c : StellifyClient) (w : World) (uuid : String) :=
  c.exec w .get ("/directory/" ++ uuid) none none

def StellifyClient.createDirectory (c : StellifyClient) (w : World) (params : JsValue) :=
  c.exec w .post "/directory" (some params) none

def StellifyClient.saveDirectory (c : StellifyClient) (w : World) (uuid : String) (data : JsValue) :=
  c.exec w .put ("/directory/" ++ uuid) (some (.obj [("uuid", .str uuid), ("data", data)])) none

def StellifyClient.getProject (c : StellifyClient) (w : World) :=
  c.exec w .get "/getProject" none none

/- The CallTool dispatch handler (src/index.ts lines 1029-1604). -/

/-- The uniform result envelope: the object serialized into the single
text content block of a tool result, and the `isError` flag (absent on
success returns, modelled as `false`). -/
structure Envelope where
  body : JsValue
  isError : Bool
deriving Repr

/-- A success return site of the dispatch switch: `{success: true, ...fields}`
with no `isError` flag. -/
def mkSuccess (fields : List (String × JsValue)) : Envelope :=
  { body := .obj (("success", .bool true) :: fields), isError := false }

/-- The catch block at the dispatch boundary: `{success: false, error:
error.message, details: error.response?.data || error.toString()}` with
`isError: true`. -/
def catchEnvelope (e : JsError) : Envelope :=
  { body := .obj
      [ ("success", .bool false)
      , ("error", .str e.message)
      , ("details", jsOrOpt e.responseData (.str e.stringForm)) ]
  , isError := true }

/-- Result of one switch case in the dispatch handler: the success fields
(after `success: true`) or the error thrown inside the `try`, together
with the wire trace of remote requests the case issued. -/
def CaseResult : Type := Except JsError (List (String × JsValue)) × List HttpRequest

/-- Sequence a client call into a case body: the thrown error of the call
propagates, the wire trace is kept either way. -/
def withCall (call : Except JsError JsValue × List HttpRequest)
    (k : JsValue → Except JsError (List (String × JsValue))) : CaseResult :=
  (match call.1 with
   | .error e => .error e
   | .ok v => k v, call.2)

/-- Sequence an argument read (which can throw) before the client call of
a case body; a throw here means no request was issued. -/
def withArg (a : Except JsError JsValue)
    (k : JsValue → CaseResult) : CaseResult :=
  match a with
  | .error e => (.error e, [])
  | .ok v => k v

/-- Case `get_project`. -/
def caseGetProject (c : StellifyClient) (w : World) (_args : JsValue) : CaseResult :=
  withCall (c.getProject w) fun result => do
    let d ← result.dotThrow "data"
    let nm ← jsOrE (d.dotOpt "name") (result.dotThrow "name")
    let uu ← jsOrE (d.dotOpt "uuid") (result.dotThrow "uuid")
    pure
      [ ("message", .str ("Active project: \"" ++ nm.jsToString ++ "\" (" ++ uu.jsToString ++ ")"))
      , ("project", jsOr d result) ]

/-- Case `create_file`. -/
def caseCreateFile (c : StellifyClient) (w : World) (args : JsValue) : CaseResult :=
  withCall (c.createFile w args) fun result => do
    let fileData ← dataOrSelf result
    let nm ← args.dotThrow "name"
    let uu ← fileData.dotThrow "uuid"
    pure
      [ ("message", .str ("Created file \"" ++ nm.jsToString ++ "\" (UUID: " ++ uu.jsToString ++ ")"))
      , ("file", fileData) ]

/-- Case `create_method`. -/
def caseCreateMethod (c : StellifyClient) (w : World) (args : JsValue) : CaseResult :=
  withCall (c.createMethod w args) fun result => do
    let methodData ← dataOrSelf result
    let nm ← args.dotThrow "name"
    let uu ← methodData.dotThrow "uuid"
    pure
      [ ("message", .str ("Created method \"" ++ nm.jsToString ++ "\" (UUID: " ++ uu.jsToString ++ ")"))
      , ("method", methodData) ]

/-- Case `save_method`: `const { uuid, ...data } = args`, then
`saveMethod(uuid, { uuid, ...data })`. -/
def caseSaveMethod (c : StellifyClient) (w : World) (args : JsValue) : CaseResult :=
  withArg (args.dotThrow "uuid") fun uuidV =>
  withCall (c.saveMethod w uuidV.jsToString (.obj (("uuid", uuidV) :: objRest args "uuid")))
    fun result => do
    pure
      [ ("message", .str ("Updated method \"" ++ uuidV.jsToString ++ "\""))
      , ("method", result) ]

/-- Case `add_method_body`. -/
def caseAddMethodBody (c : StellifyClient) (w : World) (args : JsValue) : CaseResult :=
  withCall (c.addMethodBody w args) fun result => do
    pure
      [ ("message", .str "Method body parsed and saved successfully")
      , ("data", result) ]

/-- Case `search_methods`. -/
def caseSearchMethods (c : StellifyClient) (w : World) (args : JsValue) : CaseResult :=
  withCall (c.searchMethods w args) fun result => do
    pure [("results", result)]

/-- Case `search_files`. -/
def caseSearchFiles (c : StellifyClient) (w : World) (args : JsValue) : CaseResult :=
  withCall (c.searchFiles w args) fun result => do
    pure [("results", result)]

/-- Case `create_route`. -/
def caseCreateRoute (c : StellifyClient) (w : World) (args : JsValue) : CaseResult :=
  withCall (c.createRoute w args) fun result => do
    let routeData ← dataOrSelf result
    let nm ← args.dotThrow "name"
    let pth ← args.dotThrow "path"
    let uu ← routeData.dotThrow "uuid"
    pure
      [ ("message", .str ("Created route \"" ++ nm.jsToString ++ "\" at " ++ pth.jsToString
          ++ " (UUID: " ++ uu.jsToString ++ "). Use this UUID for html_to_elements page parameter."))
      , ("route", routeData) ]

/-- Case `get_route`. -/
def caseGetRoute (c : StellifyClient) (w : World) (args : JsValue) : CaseResult :=
  withArg (args.dotThrow "uuid") fun uuidV =>
  withCall (c.getRoute w uuidV.jsToString) fun result => do
    let routeData ← dataOrSelf result
    let nm ← routeData.dotThrow "name"
    let pth ← routeData.dotThrow "path"
    pure
      [ ("message", .str ("Route: \"" ++ nm.jsToString ++ "\" at " ++ pth.jsToString))
      , ("route", routeData) ]

/-- Case `search_routes`: `Array.isArray(routes) ? routes.length :
Object.keys(routes).length`. -/
def caseSearchRoutes (c : StellifyClient) (w : World) (args : JsValue) : CaseResult :=
  withCall (c.searchRoutes w args) fun result => do
    let routes ← dataOrSelf result
    let routeCount : Nat :=
      match routes with
      | .arr xs => xs.length
      | v => jsObjectKeysLen v
    pure
      [ ("message", .str ("Found " ++ toString routeCount ++ " routes"))
      , ("routes", routes) ]

/-- Case `create_element`. -/
def caseCreateElement (c : StellifyClient) (w : World) (args : JsValue) : CaseResult :=
  withCall (c.createElement w args) fun result => do
    let ty ← args.dotThrow "type"
    pure
      [ ("message", .str ("Created element of type \"" ++ ty.jsToString ++ "\""))
      , ("element", result) ]

/-- Case `update_element`: `const { uuid, data } = args`. -/
def caseUpdateElement (c : StellifyClient) (w : World) (args : JsValue) : CaseResult :=
  withArg (args.dotThrow "uuid") fun uuidV =>
  withArg (args.dotThrow "data") fun dataV =>
  withCall (c.updateElement w uuidV.jsToString dataV) fun result => do
    pure
      [ ("message", .str ("Updated element " ++ uuidV.jsToString))
      , ("element", result) ]

/-- Case `get_element`. -/
def caseGetElement (c : StellifyClient) (w : World) (args : JsValue) : CaseResult :=
  withArg (args.dotThrow "uuid") fun uuidV =>
  withCall (c.getElement w uuidV.jsToString) fun result => do
    pure [("element", result)]

/-- Case `get_element_tree`. -/
def caseGetElementTree (c : StellifyClient) (w : World) (args : JsValue) : CaseResult :=
  withArg (args.dotThrow "uuid") fun uuidV =>
  withCall (c.getElementTree w uuidV.jsToString) fun result => do
    pure
      [ ("message", .str ("Retrieved element tree for " ++ uuidV.jsToString))
      , ("tree", result) ]

/-- Case `delete_element`: the handler passes only the uuid, so the client
fills the page/current path segments with the literal "null". -/
def caseDeleteElement (c : StellifyClient) (w : World) (args : JsValue) : CaseResult :=
  withArg (args.dotThrow "uuid") fun uuidV =>
  withCall (c.deleteElement w uuidV.jsToString none none) fun result => do
    let dc ← result.dotThrow "deleted_count"
    pure
      [ ("message", .str ("Deleted element " ++ uuidV.jsToString ++ " and "
          ++ dc.jsToString ++ " total elements"))
      , ("deleted_count", dc) ]

/-- Case `search_elements`: reads `result.data.length` with plain dots, so
a body without `data` throws (and is caught downstream). -/
def caseSearchElements (c : StellifyClient) (w : World) (args : JsValue) : CaseResult :=
  withCall (c.searchElements w args) fun result => do
    let d ← result.dotThrow "data"
    let len ← d.dotThrow "length"
    let pg ← result.dotThrow "pagination"
    pure
      [ ("message", .str ("Found " ++ len.jsToString ++ " elements"))
      , ("elements", d)
      , ("pagination", pg) ]

/-- Case `html_to_elements`: `Object.keys(result.data || {}).length` and
the TEST MODE suffix from the truthiness of `args.test`. -/
def caseHtmlToElements (c : StellifyClient) (w : World) (args : JsValue) : CaseResult :=
  withCall (c.htmlToElements w args) fun result => do
    let d ← result.dotThrow "data"
    let elementCount := jsObjectKeysLen (jsOr d (.obj []))
    let t ← args.dotThrow "test"
    let testMode := if t.truthy then " (TEST MODE - not created)" else ""
    pure
      [ ("message", .str ("Converted HTML to " ++ toString elementCount ++ " elements" ++ testMode))
      , ("elements", d) ]

/-- Case `list_globals`. -/
def caseListGlobals (c : StellifyClient) (w : World) (_args : JsValue) : CaseResult :=
  withCall (c.listGlobals w) fun result => do
    let d ← result.dotThrow "data"
    pure
      [ ("message", .str ("Found " ++ (jsOr (d.dotOpt "length") (.num 0)).jsToString ++ " globals"))
      , ("globals", d) ]

/-- Case `get_global`. -/
def caseGetGlobal (c : StellifyClient) (w : World) (args : JsValue) : CaseResult :=
  withArg (args.dotThrow "uuid") fun uuidV =>
  withCall (c.getGlobal w uuidV.jsToString) fun result => do
    pure [("global", result)]

/-- Case `install_global`. -/
def caseInstallGlobal (c : StellifyClient) (w : World) (args : JsValue) : CaseResult :=
  withCall (c.installGlobal w args) fun result => do
    let d ← result.dotThrow "data"
    pure
      [ ("message", .str ("Installed global \"" ++ (d.dotOpt "file_name").jsToString ++ "\" ("
          ++ (d.dotOpt "methods_copied").jsToString ++ " methods, "
          ++ (d.dotOpt "statements_copied").jsToString ++ " statements)"))
      , ("data", d) ]

/-- Case `search_global_methods`. -/
def caseSearchGlobalMethods (c : StellifyClient) (w : World) (args : JsValue) : CaseResult :=
  withCall (c.searchGlobalMethods w args) fun result => do
    let d ← result.dotThrow "data"
    pure
      [ ("message", .str ("Found " ++ (jsOr (d.dotOpt "length") (.num 0)).jsToString
          ++ " global methods"))
      , ("methods", d) ]

/-- Case `list_modules`. -/
def caseListModules (c : StellifyClient) (w : World) (_args : JsValue) : CaseResult :=
  withCall (c.listModules w) fun result => do
    let d ← result.dotThrow "data"
    pure
      [ ("message", .str ("Found " ++ (jsOr (d.dotOpt "length") (.num 0)).jsToString ++ " modules"))
      , ("modules", d) ]

/-- Case `get_module`. -/
def caseGetModule (c : StellifyClient) (w : World) (args : JsValue) : CaseResult :=
  withArg (args.dotThrow "uuid") fun uuidV =>
  withCall (c.getModule w uuidV.jsToString) fun result => do
    let m ← result.dotThrow "module"
    let fs ← result.dotThrow "files"
    pure [("module", m), ("files", fs)]

/-- Case `create_module`. -/
def caseCreateModule (c : StellifyClient) (w : World) (args : JsValue) : CaseResult :=
  withCall (c.createModule w args) fun result => do
    let d ← result.dotThrow "data"
    pure
      [ ("message", .str ("Created module \"" ++ (d.dotOpt "name").jsToString ++ "\""))
      , ("data", d) ]

/-- Case `add_file_to_module`. -/
def caseAddFileToModule (c : StellifyClient) (w : World) (args : JsValue) : CaseResult :=
  withCall (c.addFileToModule w args) fun result => do
    let d ← result.dotThrow "data"
    pure
      [ ("message", .str ("Added \"" ++ (d.dotOpt "file_name").jsToString
          ++ "\" to module (order: " ++ (d.dotOpt "order").jsToString ++ ")"))
      , ("data", d) ]

/-- Case `install_module`. -/
def caseInstallModule (c : StellifyClient) (w : World) (args : JsValue) : CaseResult :=
  withCall (c.installModule w args) fun result => do
    let d ← result.dotThrow "data"
    pure
      [ ("message", .str ("Installed module \"" ++ (d.dotOpt "module_name").jsToString ++ "\" ("
          ++ (d.dotOpt "files_installed").jsToString ++ " files, "
          ++ (d.dotOpt "methods_copied").jsToString ++ " methods, "
          ++ (d.dotOpt "statements_copied").jsToString ++ " statements)"))
      , ("data", d) ]

/-- Case `get_statement`: `result.statement || result` and
`result.clauses || null`. -/
def caseGetStatement (c : StellifyClient) (w : World) (args : JsValue) : CaseResult :=
  withArg (args.dotThrow "uuid") fun uuidV =>
  withCall (c.getStatement w uuidV.jsToString) fun result => do
    let st ← result.dotThrow "statement"
    let cl ← result.dotThrow "clauses"
    pure
      [ ("message", .str "Statement retrieved")
      , ("statement", jsOr st result)
      , ("clauses", jsOr cl .null) ]

/-- Case `create_statement`. -/
def caseCreateStatement (c : StellifyClient) (w : World) (args : JsValue) : CaseResult :=
  withCall (c.createStatement w args) fun result => do
    let d ← result.dotThrow "data"
    let uu ← jsOrE (d.dotOpt "uuid") (result.dotThrow "uuid")
    pure
      [ ("message", .str ("Created statement (" ++ uu.jsToString ++ ")"))
      , ("statement", jsOr d result) ]

/-- Case `add_statement_code`. -/
def caseAddStatementCode (c : StellifyClient) (w : World) (args : JsValue) : CaseResult :=
  withCall (c.addStatementCode w args) fun result => do
    pure
      [ ("message", .str "Statement code added successfully")
      , ("data", result) ]

/-- Case `save_file`: `const { uuid, ...data } = args`, then
`saveFile(uuid, { uuid, ...data })` and `data.name || uuid` in the
message. -/
def caseSaveFile (c : StellifyClient) (w : World) (args : JsValue) : CaseResult :=
  withArg (args.dotThrow "uuid") fun uuidV =>
  withCall (c.saveFile w uuidV.jsToString (.obj (("uuid", uuidV) :: objRest args "uuid")))
    fun result => do
    let nm := jsOr ((JsValue.obj (objRest args "uuid")).field "name") uuidV
    pure
      [ ("message", .str ("Saved file \"" ++ nm.jsToString ++ "\""))
      , ("file", result) ]

/-- Case `get_file`. -/
def caseGetFile (c : StellifyClient) (w : World) (args : JsValue) : CaseResult :=
  withArg (args.dotThrow "uuid") fun uuidV =>
  withCall (c.getFile w uuidV.jsToString) fun result => do
    pure [("file", result)]

/-- Case `get_directory`. -/
def caseGetDirectory (c : StellifyClient) (w : World) (args : JsValue) : CaseResult :=
  withArg (args.dotThrow "uuid") fun uuidV =>
  withCall (c.getDirectory w uuidV.jsToString) fun result => do
    let dirData ← dataOrSelf result
    let nm ← dirData.dotThrow "name"
    let uu ← dirData.dotThrow "uuid"
    pure
      [ ("message", .str ("Directory: \"" ++ nm.jsToString ++ "\" (" ++ uu.jsToString ++ ")"))
      , ("directory", dirData) ]

/-- Case `create_directory`: the message depends on the truthiness of
`result.existing`, and the envelope repeats `result.existing || false`. -/
def caseCreateDirectory (c : StellifyClient) (w : World) (args : JsValue) : CaseResult :=
  withCall (c.createDirectory w args) fun result => do
    let ex ← result.dotThrow "existing"
    let nm ← args.dotThrow "name"
    let d ← result.dotThrow "data"
    let uu ← jsOrE (d.dotOpt "uuid") (result.dotThrow "uuid")
    let msg :=
      if ex.truthy then
        "Using existing directory \"" ++ nm.jsToString ++ "\" (" ++ uu.jsToString ++ ")"
      else
        "Created directory \"" ++ nm.jsToString ++ "\" (" ++ uu.jsToString ++ ")"
    pure
      [ ("message", .str msg)
      , ("directory", jsOr d result)
      , ("existing", jsOr ex (.bool false)) ]

/-- The error thrown by the default branch of the switch. -/
def unknownToolError (name : String) : JsError :=
  { message := "Unknown tool: " ++ name
  , responseData := none
  , stringForm := "Error: Unknown tool: " ++ name }

/-- The switch on the tool name inside the `try` block (first-match chain
over the literal case labels, in source order; the default branch throws
`Unknown tool`). -/
def dispatchCase (c : StellifyClient) (w : World) (name : String) (args : JsValue) : CaseResult :=
  if name = "get_project" then caseGetProject c w args
  else if name = "create_file" then caseCreateFile c w args
  else if name = "create_method" then caseCreateMethod c w args
  else if name = "save_method" then caseSaveMethod c w args
  else if name = "add_method_body" then caseAddMethodBody c w args
  else if name = "search_methods" then caseSearchMethods c w args
  else if name = "search_files" then caseSearchFiles c w args
  else if name = "create_route" then caseCreateRoute c w args
  else if name = "get_route" then caseGetRoute c w args
  else if name = "search_routes" then caseSearchRoutes c w args
  else if name = "create_element" then caseCreateElement c w args
  else if name = "update_element" then caseUpdateElement c w args
  else if name = "get_element" then caseGetElement c w args
  else if name = "get_element_tree" then caseGetElementTree c w args
  else if name = "delete_element" then caseDeleteElement c w args
  else if name = "search_elements" then caseSearchElements c w args
  else if name = "html_to_elements" then caseHtmlToElements c w args
  else if name = "list_globals" then caseListGlobals c w args
  else if name = "get_global" then caseGetGlobal c w args
  else if name = "install_global" then caseInstallGlobal c w args
  else if name = "search_global_methods" then caseSearchGlobalMethods c w args
  else if name = "list_modules" then caseListModules c w args
  else if name = "get_module" then caseGetModule c w args
  else if name = "create_module" then caseCreateModule c w args
  else if name = "add_file_to_module" then caseAddFileToModule c w args
  else if name = "install_module" then caseInstallModule c w args
  else if name = "get_statement" then caseGetStatement c w args
  else if name = "create_statement" then caseCreateStatement c w args
  else if name = "add_statement_code" then caseAddStatementCode c w args
  else if name = "save_file" then caseSaveFile c w args
  else if name = "get_file" then caseGetFile c w args
  else if name = "get_directory" then caseGetDirectory c w args
  else if name = "create_directory" then caseCreateDirectory c w args
  else (.error (unknownToolError name), [])

/-- Convert a case result into the single returned envelope: a success
return passes through, a thrown error is converted by the catch block. -/
def toEnvelope (r : Except JsError (List (String × JsValue))) : Envelope :=
  match r with
  | .ok fields => mkSuccess fields
  | .error e => catchEnvelope e

/-- The `!args` guard at the top of the handler: the argument bag must be
present and truthy. -/
def argsPresent : Option JsValue → Bool
  | none => false
  | some v => v.truthy

/-- The CallTool handler: the args guard (whose throw is OUTSIDE the
`try`/`catch` and therefore escapes the handler), then the switch inside
`try` with the catch converting any thrown error into a failure envelope.
The returned trace lists the remote requests the invocation issued.  An
`Except.error` models an exception propagating out of the handler to the
protocol SDK; the handler contains no process-terminating call. -/
def handleCallTool (c : StellifyClient) (w : World) (name : String)
    (args : Option JsValue) : Except String (Envelope × List HttpRequest) :=
  match args with
  | none => .error "Arguments are required"
  | some a =>
    if a.truthy then
      let p := dispatchCase c w name a
      .ok (toEnvelope p.1, p.2)
    else .error "Arguments are required"

/- The static tool catalogue (src/index.ts lines 104-992).  Descriptions
are free prose consumed by the LLM caller and are not inspected by any
code path; each descriptor keeps the name, the declared schema property
keys (in source order) and the required list. -/

structure ToolDescriptor where
  name : String
  properties : List String
  required : List String
deriving Repr, DecidableEq

/-- The `tools` array: the full static catalogue defined at module load. -/
def tools : List ToolDescriptor :=
  [ { name := "get_project", properties := [], required := [] }
  , { name := "create_file"
    , properties := ["directory", "name", "type", "extension", "namespace", "includes"]
    , required := ["directory", "name", "type"] }
  , { name := "create_method"
    , properties := ["file", "name", "visibility", "is_static", "returnType", "nullable", "parameters"]
    , required := ["file", "name"] }
  , { name := "add_method_body"
    , properties := ["file", "method", "code"]
    , required := ["file", "method", "code"] }
  , { name := "save_method"
    , properties := ["uuid", "name", "visibility", "is_static", "returnType", "nullable", "parameters"]
    , required := ["uuid"] }
  , { name := "search_methods", properties := ["name", "file_uuid"], required := [] }
  , { name := "search_files", properties := ["name", "type"], required := [] }
  , { name := "create_route"
    , properties := ["project_id", "name", "path", "method", "type", "data"]
    , required := ["project_id", "name", "path", "method"] }
  , { name := "get_route", properties := ["uuid"], required := ["uuid"] }
  , { name := "search_routes", properties := ["search", "type", "per_page"], required := [] }
  , { name := "create_element", properties := ["type", "page", "parent"], required := ["type"] }
  , { name := "update_element", properties := ["uuid", "data"], required := ["uuid", "data"] }
  , { name := "get_element", properties := ["uuid"], required := ["uuid"] }
  , { name := "get_element_tree", properties := ["uuid"], required := ["uuid"] }
  , { name := "delete_element", properties := ["uuid"], required := ["uuid"] }
  , { name := "search_elements"
    , properties := ["search", "type", "include_metadata", "per_page"]
    , required := [] }
  , { name := "html_to_elements"
    , properties := ["elements", "page", "selection", "test"]
    , required := ["elements"] }
  , { name := "list_globals", properties := [], required := [] }
  , { name := "get_global", properties := ["uuid"], required := ["uuid"] }
  , { name := "install_global"
    , properties := ["file_uuid", "directory_uuid"]
    , required := ["file_uuid", "directory_uuid"] }
  , { name := "search_global_methods", properties := ["query"], required := ["query"] }
  , { name := "list_modules", properties := [], required := [] }
  , { name := "get_module", properties := ["uuid"], required := ["uuid"] }
  , { name := "create_module"
    , properties := ["name", "description", "version", "tags"]
    , required := ["name"] }
  , { name := "add_file_to_module"
    , properties := ["module_uuid", "file_uuid", "order"]
    , required := ["module_uuid", "file_uuid"] }
  , { name := "install_module"
    , properties := ["module_uuid", "directory_uuid"]
    , required := ["module_uuid", "directory_uuid"] }
  , { name := "get_statement", properties := ["uuid"], required := ["uuid"] }
  , { name := "create_statement", properties := ["file", "method"], required := [] }
  , { name := "add_statement_code"
    , properties := ["file", "statement", "code"]
    , required := ["file", "statement", "code"] }
  , { name := "save_file"
    , properties := ["uuid", "name", "type", "extension", "template", "data", "statements", "includes"]
    , required := ["uuid", "name", "type"] }
  , { name := "get_file", properties := ["uuid"], required := ["uuid"] }
  , { name := "get_directory", properties := ["uuid"], required := ["uuid"] }
  , { name := "create_directory", properties := ["name"], required := ["name"] }
  ]

/-- The case labels of the dispatch switch, in source order. -/
def toolNames : List String := tools.map ToolDescriptor.name

/- Process bootstrap (src/index.ts lines 14-28): read the base URL with a
default, exit on a missing credential, otherwise construct the client. -/

/-- The default base URL (line 16). -/
def defaultApiUrl : String := "https://stellisoft.com/api/v1"

/-- Outcome of module load: either `process.exit` with a diagnostic
already written to stderr, or a running process holding the constructed
client (only then are the request handlers registered and the catalogue
served). -/
inductive StartupResult where
  | exited (stderrLine : String) (code : Nat)
  | running (client : StellifyClient)

/-- The bootstrap: `API_URL = env || default`, `if (!API_TOKEN) exit(1)`,
then `new StellifyClient(...)`.  An environment variable set to the empty
string is falsy, like an absent one. -/
def startup (envUrl envToken : Option String) : StartupResult :=
  let apiUrl := strOr envUrl defaultApiUrl
  match envToken with
  | none => .exited "Error: STELLIFY_API_TOKEN environment variable is required" 1
  | some tok =>
    if tok = "" then .exited "Error: STELLIFY_API_TOKEN environment variable is required" 1
    else .running (StellifyClient.ofConfig { apiUrl := apiUrl, apiToken := tok })

/- The running server as a state machine: process-wide state is the client
instance and the catalogue, both set at startup; each inbound request
carries its own remote world. -/

/-- Process-wide state of the running server. -/
structure ServerState where
  client : StellifyClient
  catalogue : List ToolDescriptor

/-- The server state right after startup. -/
def initialServer (client : StellifyClient) : ServerState :=
  { client := client, catalogue := tools }

/-- An inbound protocol request: ListTools, or CallTool with the
invocation-local remote world. -/
inductive Request where
  | listTools
  | callTool (w : World) (name : String) (args : Option JsValue)

/-- The response written back for one request. -/
inductive Response where
  | toolList (ts : List ToolDescriptor)
  | callResult (r : Except String (Envelope × List HttpRequest))

/-- One request handled by the registered handlers.  Neither handler
writes to the process-wide state (no mutation path for the catalogue or
the client exists in the source). -/
def serverStep (s : ServerState) : Request → ServerState × Response
  | .listTools => (s, .toolList s.catalogue)
  | .callTool w name args => (s, .callResult (handleCallTool s.client w name args))

/-- Handle a sequence of inbound requests, collecting the responses. -/
def serverRun (s : ServerState) : List Request → List Response
  | [] => []
  | r :: rs =>
    let (s2, resp) := serverStep s r
    resp :: serverRun s2 rs

/-- The wire trace one call result contributed (empty when the handler
threw before reaching its case). -/
def requestTrace (r : Except String (Envelope × List HttpRequest)) : List HttpRequest :=
  match r with
  | .ok (_, tr) => tr
  | .error _ => []

/-- All remote requests issued over a response sequence. -/
def requestsIssued (rs : List Response) : List HttpRequest :=
  match rs with
  | [] => []
  | .toolList _ :: rest => requestsIssued rest
  | .callResult r :: rest => requestTrace r ++ requestsIssued rest

/- Enumeration of the public methods of StellifyClient, for quantifying
over "every method of the remote API client" with its arguments. -/

/-- One call to one of the 38 public client methods, with its arguments. -/
inductive ClientMethodCall where
  | createFile (params : JsValue)
  | createMethod (params : JsValue)
  | addMethodBody (params : JsValue)
  | addStatementCode (params : JsValue)
  | searchMethods (params : JsValue)
  | searchFiles (params : JsValue)
  | getFile (uuid : String)
  | saveFile (uuid : String) (data : JsValue)
  | getMethod (uuid : String)
  | saveMethod (uuid : String) (data : JsValue)
  | createStatement (params : JsValue)
  | getStatement (uuid : String)
  | saveStatement (uuid : String) (data : JsValue)
  | createRoute (params : JsValue)
  | getRoute (uuid : String)
  | searchRoutes (params : JsValue)
  | createElement (params : JsValue)
  | updateElement (uuid : String) (data : JsValue)
  | getElement (uuid : String)
  | getElementTree (uuid : String)
  | deleteElement (uuid : String) (page current : Option String)
  | searchElements (params : JsValue)
  | htmlToElements (params : JsValue)
  | listGlobals
  | getGlobal (uuid : String)
  | installGlobal (params : JsValue)
  | searchGlobalMethods (params : JsValue)
  | listModules
  | getModule (uuid : String)
  | createModule (params : JsValue)
  | addFileToModule (params : JsValue)
  | removeFileFromModule (moduleUuid fileUuid : String)
  | installModule (params : JsValue)
  | deleteModule (uuid : String)
  | getDirectory (uuid : String)
  | createDirectory (params : JsValue)
  | saveDirectory (uuid : String) (data : JsValue)
  | getProject

/-- Run the named client method on an instance against a world. -/
def ClientMethodCall.run (call : ClientMethodCall) (c : StellifyClient) (w : World) :
    Except JsError JsValue × List HttpRequest :=
  match call with
  | .createFile p => c.createFile w p
  | .createMethod p => c.createMethod w p
  | .addMethodBody p => c.addMethodBody w p
  | .addStatementCode p => c.addStatementCode w p
  | .searchMethods p => c.searchMethods w p
  | .searchFiles p => c.searchFiles w p
  | .getFile u => c.getFile w u
  | .saveFile u d => c.saveFile w u d
  | .getMethod u => c.getMethod w u
  | .saveMethod u d => c.saveMethod w u d
  | .createStatement p => c.createStatement w p
  | .getStatement u => c.getStatement w u
  | .saveStatement u d => c.saveStatement w u d
  | .createRoute p => c.createRoute w p
  | .getRoute u => c.getRoute w u
  | .searchRoutes p => c.searchRoutes w p
  | .createElement p => c.createElement w p
  | .updateElement u d => c.updateElement w u d
  | .getElement u => c.getElement w u
  | .getElementTree u => c.getElementTree w u
  | .deleteElement u p cur => c.deleteElement w u p cur
  | .searchElements p => c.searchElements w p
  | .htmlToElements p => c.htmlToElements w p
  | .listGlobals => c.listGlobals w
  | .getGlobal u => c.getGlobal w u
  | .installGlobal p => c.installGlobal w p
  | .searchGlobalMethods p => c.searchGlobalMethods w p
  | .listModules => c.listModules w
  | .getModule u => c.getModule w u
  | .createModule p => c.createModule w p
  | .addFileToModule p => c.addFileToModule w p
  | .removeFileFromModule m f => c.removeFileFromModule w m f
  | .installModule p => c.installModule w p
  | .deleteModule u => c.deleteModule w u
  | .getDirectory u => c.getDirectory w u
  | .createDirectory p => c.createDirectory w p
  | .saveDirectory u d => c.saveDirectory w u d
  | .getProject => c.getProject w

/- Theorems. -/

/-- Whether a handler outcome is an envelope (as opposed to an exception
escaping to the protocol SDK). -/
def producesEnvelope (r : Except String (Envelope × List HttpRequest)) : Bool :=
  match r with
  | .ok _ => true
  | .error _ => false

/-- C2 counterexample: with the argument bag absent, the handler raises
the error instead of returning a failure envelope — the `throw` sits
before the `try`, so the catch cannot convert it and it surfaces to the
protocol layer. -/
theorem missing_args_counterexample :
    producesEnvelope (handleCallTool
        (StellifyClient.ofConfig { apiUrl := defaultApiUrl, apiToken := "token" })
        (fun _ => .response 200 (.obj [])) "get_project" none) = false
    ∧ handleCallTool
        (StellifyClient.ofConfig { apiUrl := defaultApiUrl, apiToken := "token" })
        (fun _ => .response 200 (.obj [])) "get_project" none
      = .error "Arguments are required" :=
  ⟨rfl, rfl⟩

/-- C2 (amended): for every invocation whose argument bag is absent, the
handler raises an `Arguments are required` exception that escapes the
dispatch try/catch (so it is surfaced to the protocol layer rather than
returned as a failure envelope inside the success channel); no remote
request is issued and the handler makes no process-terminating call, so
the error stays invocation-local. -/
theorem missing_args_error_escapes_dispatch :
    ∀ (c : StellifyClient) (w : World) (name : String),
      handleCallTool c w name none = .error "Arguments are required"
      ∧ producesEnvelope (handleCallTool c w name none) = false
      ∧ requestTrace (handleCallTool c w name none) = [] :=
  fun _ _ _ => ⟨rfl, rfl, rfl⟩

/-- C1 counterexample: an inbound tool-call with an absent argument bag
does not produce a result envelope — the handler raises instead, so "for
every inbound tool-call request (including an absent argument bag) the
dispatch handler produces exactly one result envelope" is false. -/
theorem call_tool_absent_args_counterexample :
    producesEnvelope (handleCallTool
        (StellifyClient.ofConfig { apiUrl := defaultApiUrl, apiToken := "token" })
        (fun _ => .networkFailure "ECONNREFUSED") "create_file" none) = false :=
  rfl

/-- C1 (amended): for every inbound tool-call request whose argument bag
is present (and truthy, as the `!args` guard requires), the dispatch
handler produces exactly one result envelope — either a success envelope
(`success: true`, no error flag) or a failure envelope (`success: false`,
`isError: true`) — for any tool name and any remote behavior; the handler
contains no process-terminating call (only the missing startup credential
exits the process, see the startup theorem).  An absent argument bag
instead raises out of the handler. -/
theorem call_tool_present_args_one_envelope :
    ∀ (c : StellifyClient) (w : World) (name : String) (args : JsValue),
      args.truthy = true →
      ∃ env tr, handleCallTool c w name (some args) = .ok (env, tr)
        ∧ ((env.body.getField "success" = some (.bool true) ∧ env.isError = false)
           ∨ (env.body.getField "success" = some (.bool false) ∧ env.isError = true)) := by
  intro c w name args h
  refine ⟨toEnvelope (dispatchCase c w name args).1, (dispatchCase c w name args).2, ?_, ?_⟩
  · simp [handleCallTool, h]
  · cases hr : (dispatchCase c w name args).1 with
    | ok fields =>
        left
        simp [toEnvelope, mkSuccess, JsValue.getField, List.lookup]
    | error e =>
        right
        simp [toEnvelope, catchEnvelope, JsValue.getField, List.lookup]

/-- C1 witness. -/
theorem call_tool_present_args_one_envelope_witness :
    (JsValue.obj []).truthy = true
    ∧ ∃ env tr,
        handleCallTool (StellifyClient.ofConfig { apiUrl := defaultApiUrl, apiToken := "token" })
          (fun _ => .response 200 (.obj [("data", .arr [])])) "list_globals" (some (.obj []))
          = .ok (env, tr)
        ∧ ((env.body.getField "success" = some (.bool true) ∧ env.isError = false)
           ∨ (env.body.getField "success" = some (.bool false) ∧ env.isError = true)) :=
  ⟨rfl, call_tool_present_args_one_envelope _ _ "list_globals" (.obj []) rfl⟩

/-- C10: the `!args` guard runs before the tool-name dispatch and applies
uniformly to every tool name — including the three tools whose input
schema declares no properties and no required fields (`get_project`,
`list_globals`, `list_modules`) — so invoking any of them with an absent
argument bag still raises the `Arguments are required` error. -/
theorem uniform_args_guard :
    (∀ (c : StellifyClient) (w : World) (name : String),
        handleCallTool c w name none = .error "Arguments are required")
    ∧ (∀ t ∈ tools,
        (t.name = "get_project" ∨ t.name = "list_globals" ∨ t.name = "list_modules") →
        t.properties = [] ∧ t.required = []) :=
  ⟨fun _ _ _ => rfl, by decide⟩

/-- C10 witness. -/
theorem uniform_args_guard_witness :
    handleCallTool (StellifyClient.ofConfig { apiUrl := defaultApiUrl, apiToken := "token" })
      (fun _ => .response 200 (.obj [])) "get_project" none = .error "Arguments are required"
    ∧ (ToolDescriptor.mk "get_project" [] []) ∈ tools
    ∧ (ToolDescriptor.mk "get_project" [] []).properties = []
    ∧ (ToolDescriptor.mk "get_project" [] []).required = [] := by
  refine ⟨uniform_args_guard.1 _ _ _, by decide, ?_, ?_⟩
  · exact (uniform_args_guard.2 _ (by decide) (Or.inl rfl)).1
  · exact (uniform_args_guard.2 _ (by decide) (Or.inl rfl)).2

/-- C5: startup with the mandatory credential unset (or set to the falsy
empty string) writes the diagnostic and exits with code 1 — never reaching
the running state that registers the request handlers, so no tool ever
becomes invokable — and when the credential is set, the base URL defaults
to the fixed value when its own environment variable is absent. -/
theorem startup_credential_guard :
    (∀ envUrl, startup envUrl none
        = .exited "Error: STELLIFY_API_TOKEN environment variable is required" 1)
    ∧ (∀ envUrl, ¬ ∃ cl, startup envUrl none = .running cl)
    ∧ (1 : Nat) ≠ 0
    ∧ (∀ tok : String, tok ≠ "" →
        startup none (some tok)
          = .running (StellifyClient.ofConfig { apiUrl := defaultApiUrl, apiToken := tok })) := by
  refine ⟨fun _ => rfl, ?_, by decide, ?_⟩
  · rintro envUrl ⟨cl, h⟩
    simp [startup] at h
  · intro tok h
    simp [startup, h, strOr]

/-- C5 witness. -/
theorem startup_credential_guard_witness :
    ("token123" : String) ≠ ""
    ∧ startup none (some "token123")
        = .running (StellifyClient.ofConfig { apiUrl := defaultApiUrl, apiToken := "token123" }) :=
  ⟨by decide, startup_credential_guard.2.2.2 "token123" (by decide)⟩

/-- The switch falls through to the default branch (throwing
`Unknown tool`) for any name that labels no case. -/
lemma dispatchCase_not_found (c : StellifyClient) (w : World) (args : JsValue)
    (name : String) (h : name ∉ toolNames) :
    dispatchCase c w name args = (.error (unknownToolError name), []) := by
  have hn : ∀ s, s ∈ toolNames → name ≠ s := fun s hs he => h (he ▸ hs)
  unfold dispatchCase
  rw [ if_neg (hn "get_project" (by decide))
     , if_neg (hn "create_file" (by decide))
     , if_neg (hn "create_method" (by decide))
     , if_neg (hn "save_method" (by decide))
     , if_neg (hn "add_method_body" (by decide))
     , if_neg (hn "search_methods" (by decide))
     , if_neg (hn "search_files" (by decide))
     , if_neg (hn "create_route" (by decide))
     , if_neg (hn "get_route" (by decide))
     , if_neg (hn "search_routes" (by decide))
     , if_neg (hn "create_element" (by decide))
     , if_neg (hn "update_element" (by decide))
     , if_neg (hn "get_element" (by decide))
     , if_neg (hn "get_element_tree" (by decide))
     , if_neg (hn "delete_element" (by decide))
     , if_neg (hn "search_elements" (by decide))
     , if_neg (hn "html_to_elements" (by decide))
     , if_neg (hn "list_globals" (by decide))
     , if_neg (hn "get_global" (by decide))
     , if_neg (hn "install_global" (by decide))
     , if_neg (hn "search_global_methods" (by decide))
     , if_neg (hn "list_modules" (by decide))
     , if_neg (hn "get_module" (by decide))
     , if_neg (hn "create_module" (by decide))
     , if_neg (hn "add_file_to_module" (by decide))
     , if_neg (hn "install_module" (by decide))
     , if_neg (hn "get_statement" (by decide))
     , if_neg (hn "create_statement" (by decide))
     , if_neg (hn "add_statement_code" (by decide))
     , if_neg (hn "save_file" (by decide))
     , if_neg (hn "get_file" (by decide))
     , if_neg (hn "get_directory" (by decide))
     , if_neg (hn "create_directory" (by decide)) ]

/-- C3: for every invocation (present argument bag) whose tool name is not
in the catalogue, the handler returns a failure envelope with
`success: false` whose error message is `Unknown tool: ` plus the
requested name, no remote request is issued, and the handler can still
process a subsequent valid invocation — the unknown name is not a process
fault. -/
theorem unknown_tool_failure_envelope :
    ∀ (c : StellifyClient) (w : World) (name : String) (args : JsValue),
      name ∉ toolNames → args.truthy = true →
      handleCallTool c w name (some args)
          = .ok (catchEnvelope (unknownToolError name), [])
      ∧ (catchEnvelope (unknownToolError name)).body.getField "success"
          = some (.bool false)
      ∧ (catchEnvelope (unknownToolError name)).body.getField "error"
          = some (.str ("Unknown tool: " ++ name))
      ∧ (∀ args2 : JsValue, args2.truthy = true →
          ∃ out, handleCallTool c w "get_project" (some args2) = .ok out) := by
  intro c w name args hname hargs
  refine ⟨?_, rfl, rfl, ?_⟩
  · simp [handleCallTool, hargs, dispatchCase_not_found c w args name hname, toEnvelope]
  · intro args2 h2
    refine ⟨(toEnvelope (dispatchCase c w "get_project" args2).1,
             (dispatchCase c w "get_project" args2).2), ?_⟩
    simp [handleCallTool, h2]

/-- C3 witness. -/
theorem unknown_tool_failure_envelope_witness :
    ("nonexistent_tool" : String) ∉ toolNames
    ∧ handleCallTool (StellifyClient.ofConfig { apiUrl := defaultApiUrl, apiToken := "token" })
        (fun _ => .response 200 (.obj [])) "nonexistent_tool" (some (.obj []))
      = .ok (catchEnvelope (unknownToolError "nonexistent_tool"), []) :=
  ⟨by decide,
   (unknown_tool_failure_envelope _ _ "nonexistent_tool" (.obj []) (by decide) rfl).1⟩

/-- C4: whatever error a case throws inside the `try` (remote 4xx/5xx,
transport failure, TypeError on a malformed payload), the catch at the
dispatch boundary returns one failure envelope whose `error` field is the
thrown message verbatim and whose `details` field is the structured
(truthy) remote response body when the error carries one, and the error
string form otherwise. -/
theorem catch_preserves_error_message :
    ∀ (c : StellifyClient) (w : World) (name : String) (args : JsValue)
      (e : JsError) (tr : List HttpRequest),
      args.truthy = true →
      (dispatchCase c w name args).1 = .error e →
      (dispatchCase c w name args).2 = tr →
      handleCallTool c w name (some args) = .ok (catchEnvelope e, tr)
      ∧ (catchEnvelope e).body.getField "success" = some (.bool false)
      ∧ (catchEnvelope e).body.getField "error" = some (.str e.message)
      ∧ (∀ d, e.responseData = some d → d.truthy = true →
          (catchEnvelope e).body.getField "details" = some d)
      ∧ (e.responseData = none →
          (catchEnvelope e).body.getField "details" = some (.str e.stringForm))
      ∧ (∀ d, e.responseData = some d → d.truthy = false →
          (catchEnvelope e).body.getField "details" = some (.str e.stringForm)) := by
  intro c w name args e tr hargs h1 h2
  refine ⟨?_, rfl, rfl, ?_, ?_, ?_⟩
  · simp [handleCallTool, hargs, h1, h2, toEnvelope]
  · intro d hd ht
    simp [catchEnvelope, JsValue.getField, List.lookup, jsOrOpt, hd, ht]
  · intro hd
    simp [catchEnvelope, JsValue.getField, List.lookup, jsOrOpt, hd]
  · intro d hd ht
    simp [catchEnvelope, JsValue.getField, List.lookup, jsOrOpt, hd, ht]

/-- C4 witness: a mocked 404 whose body is a structured error object. -/
theorem catch_preserves_error_message_witness :
    (JsValue.obj []).truthy = true
    ∧ (dispatchCase (StellifyClient.ofConfig { apiUrl := defaultApiUrl, apiToken := "token" })
        (fun _ => .response 404 (.obj [("error", .str "Not found")]))
        "get_project" (.obj [])).1
      = .error (axiosHttpError 404 (.obj [("error", .str "Not found")]))
    ∧ (catchEnvelope (axiosHttpError 404 (.obj [("error", .str "Not found")]))).body.getField
        "details" = some (.obj [("error", .str "Not found")]) :=
  ⟨rfl, rfl,
   (catch_preserves_error_message
      (StellifyClient.ofConfig { apiUrl := defaultApiUrl, apiToken := "token" })
      (fun _ => .response 404 (.obj [("error", .str "Not found")]))
      "get_project" (.obj [])
      (axiosHttpError 404 (.obj [("error", .str "Not found")]))
      ((dispatchCase (StellifyClient.ofConfig { apiUrl := defaultApiUrl, apiToken := "token" })
        (fun _ => .response 404 (.obj [("error", .str "Not found")]))
        "get_project" (.obj [])).2)
      rfl rfl rfl).2.2.2.1 _ rfl rfl⟩

/-- A handler step never writes the process-wide state. -/
lemma serverStep_fst (s : ServerState) (r : Request) : (serverStep s r).1 = s := by
  cases r <;> rfl

/-- Running a request list: the state is constant, so each response is a
function of the initial state and that request alone. -/
lemma serverRun_eq_map (s : ServerState) (reqs : List Request) :
    serverRun s reqs = reqs.map (fun r => (serverStep s r).2) := by
  induction reqs with
  | nil => rfl
  | cons r rs ih =>
      show (serverStep s r).2 :: serverRun (serverStep s r).1 rs = _
      rw [serverStep_fst, ih]
      rfl

/-- C6: within one process lifetime, every ListTools request — at any
position in any inbound request sequence — returns the full static
catalogue defined at module load; no operation mutates the catalogue
after startup (the state component is invariant across all steps). -/
theorem list_tools_static_catalogue :
    ∀ (client : StellifyClient) (reqs : List Request) (i : Nat),
      reqs.get? i = some .listTools →
      (serverRun (initialServer client) reqs).get? i = some (.toolList tools) := by
  intro client reqs i h
  rw [serverRun_eq_map, List.get?_map, h]
  rfl

/-- C6 witness. -/
theorem list_tools_static_catalogue_witness :
    ([Request.listTools, Request.listTools].get? 1 = some .listTools)
    ∧ (serverRun (initialServer (StellifyClient.ofConfig
          { apiUrl := defaultApiUrl, apiToken := "token" }))
        [Request.listTools, Request.listTools]).get? 1 = some (.toolList tools) :=
  ⟨rfl, list_tools_static_catalogue _ [Request.listTools, Request.listTools] 1 rfl⟩

/-- C9: the adapter keeps no mutable state between invocations.  A
tool-call appended after any prefix of prior requests yields exactly the
response it would yield from the initial state (its outcome depends only
on its own name, arguments and remote world); two invocations with
identical arguments yield two envelopes, each equal to the single-call
result, and the wire carries the single-call request trace twice — no
deduplication or caching occurs. -/
theorem no_state_between_invocations :
    ∀ (client : StellifyClient) (reqs : List Request) (w : World) (name : String)
      (args : Option JsValue),
      serverRun (initialServer client) (reqs ++ [.callTool w name args])
        = serverRun (initialServer client) reqs
          ++ [.callResult (handleCallTool client w name args)]
      ∧ serverRun (initialServer client) [.callTool w name args, .callTool w name args]
        = [.callResult (handleCallTool client w name args),
           .callResult (handleCallTool client w name args)]
      ∧ requestsIssued (serverRun (initialServer client)
            [.callTool w name args, .callTool w name args])
        = requestTrace (handleCallTool client w name args)
          ++ requestTrace (handleCallTool client w name args) := by
  intro client reqs w name args
  refine ⟨?_, rfl, ?_⟩
  · rw [serverRun_eq_map, serverRun_eq_map, List.map_append]
    rfl
  · show requestTrace _ ++ (requestTrace _ ++ requestsIssued []) = _
    simp [requestsIssued, initialServer]

/-- Specification of the single exchange `StellifyClient.exec` performs:
one request, bearer header from construction, body on 2xx, throw
otherwise. -/
lemma exec_spec (cfg : StellifyConfig) (w : World) (m : HttpMethod) (p : String)
    (b q : Option JsValue) :
    ((StellifyClient.ofConfig cfg).exec w m p b q).2.length = 1
    ∧ ∀ r ∈ ((StellifyClient.ofConfig cfg).exec w m p b q).2,
        ("Authorization", "Bearer " ++ cfg.apiToken) ∈ r.headers
        ∧ ((StellifyClient.ofConfig cfg).exec w m p b q).1 = axiosExec w r
        ∧ (∀ status data, w r = .response status data →
            ((200 ≤ status ∧ status < 300) →
              ((StellifyClient.ofConfig cfg).exec w m p b q).1 = .ok data)
            ∧ (¬(200 ≤ status ∧ status < 300) →
              ((StellifyClient.ofConfig cfg).exec w m p b q).1
                = .error (axiosHttpError status data)))
        ∧ (∀ msg, w r = .networkFailure msg →
            ((StellifyClient.ofConfig cfg).exec w m p b q).1 = .error (networkError msg)) := by
  refine ⟨rfl, ?_⟩
  intro r hr
  have hreq : r = { method := m, url := cfg.apiUrl ++ p
                  , headers := [ ("Authorization", "Bearer " ++ cfg.apiToken)
                               , ("Content-Type", "application/json")
                               , ("Accept", "application/json") ]
                  , body := b, params := q } := by
    simpa [StellifyClient.exec, StellifyClient.ofConfig] using hr
  subst hreq
  refine ⟨by simp, rfl, ?_, ?_⟩
  · intro status data hw
    constructor
    · intro h2
      simp [StellifyClient.exec, axiosExec, StellifyClient.ofConfig, hw, h2]
    · intro h2
      simp [StellifyClient.exec, axiosExec, StellifyClient.ofConfig, hw, h2]
  · intro msg hw
    simp [StellifyClient.exec, axiosExec, StellifyClient.ofConfig, hw]

/-- C7: every public method of the remote API client performs exactly one
HTTP request per call, carrying the `Authorization: Bearer` header fixed
at construction; the call resolves with the parsed response body exactly
on a 2xx status and throws the axios error on non-2xx or transport
failure.  The one-element wire trace rules out retries and batching, and
the result being `axiosExec` of that single request (for an arbitrary
world) rules out any caching of prior responses. -/
theorem client_methods_one_request_bearer :
    ∀ (call : ClientMethodCall) (cfg : StellifyConfig) (w : World),
      (call.run (StellifyClient.ofConfig cfg) w).2.length = 1
      ∧ ∀ r ∈ (call.run (StellifyClient.ofConfig cfg) w).2,
          ("Authorization", "Bearer " ++ cfg.apiToken) ∈ r.headers
          ∧ (call.run (StellifyClient.ofConfig cfg) w).1 = axiosExec w r
          ∧ (∀ status data, w r = .response status data →
              ((200 ≤ status ∧ status < 300) →
                (call.run (StellifyClient.ofConfig cfg) w).1 = .ok data)
              ∧ (¬(200 ≤ status ∧ status < 300) →
                (call.run (StellifyClient.ofConfig cfg) w).1
                  = .error (axiosHttpError status data)))
          ∧ (∀ msg, w r = .networkFailure msg →
              (call.run (StellifyClient.ofConfig cfg) w).1 = .error (networkError msg)) := by
  intro call cfg w
  cases call <;> exact exec_spec cfg w _ _ _ _

/-- C7 witness: `getProject` against a constant 200 world. -/
theorem client_methods_one_request_bearer_witness :
    ({ method := HttpMethod.get, url := defaultApiUrl ++ "/getProject"
     , headers := [ ("Authorization", "Bearer " ++ "token")
                  , ("Content-Type", "application/json")
                  , ("Accept", "application/json") ]
     , body := none, params := none } : HttpRequest)
      ∈ ((ClientMethodCall.getProject).run
          (StellifyClient.ofConfig { apiUrl := defaultApiUrl, apiToken := "token" })
          (fun _ => .response 200 (.str "ok"))).2
    ∧ ("Authorization", "Bearer " ++ "token")
        ∈ ({ method := HttpMethod.get, url := defaultApiUrl ++ "/getProject"
           , headers := [ ("Authorization", "Bearer " ++ "token")
                        , ("Content-Type", "application/json")
                        , ("Accept", "application/json") ]
           , body := none, params := none } : HttpRequest).headers
    ∧ ((ClientMethodCall.getProject).run
        (StellifyClient.ofConfig { apiUrl := defaultApiUrl, apiToken := "token" })
        (fun _ => .response 200 (.str "ok"))).1 = .ok (.str "ok") := by
  have hm : ({ method := HttpMethod.get, url := defaultApiUrl ++ "/getProject"
             , headers := [ ("Authorization", "Bearer " ++ "token")
                          , ("Content-Type", "application/json")
                          , ("Accept", "application/json") ]
             , body := none, params := none } : HttpRequest)
      ∈ ((ClientMethodCall.getProject).run
          (StellifyClient.ofConfig { apiUrl := defaultApiUrl, apiToken := "token" })
          (fun _ => .response 200 (.str "ok"))).2 :=
    List.mem_singleton.mpr rfl
  have h := (client_methods_one_request_bearer .getProject
      { apiUrl := defaultApiUrl, apiToken := "token" }
      (fun _ => .response 200 (.str "ok"))).2 _ hm
  exact ⟨hm, h.1, (h.2.2.1 200 (.str "ok") rfl).1 (by norm_num)⟩

/-- Interpolating a string value yields the string itself. -/
lemma jsToString_str (s : String) : (JsValue.str s).jsToString = s := by
  simp [JsValue.jsToString]

/-- C8: invoking `create_file` with a `name` argument issues exactly one
POST to the `/file` resource path with the argument bag as the body, and
on a remote success response of shape `{data: {uuid, ...}}` returns a
success envelope whose message contains both the supplied name and the
returned uuid, with the unwrapped file data as the payload. -/
theorem create_file_post_and_envelope :
    ∀ (cfg : StellifyConfig) (nm uu : String) (extra ff : List (String × JsValue)),
      handleCallTool (StellifyClient.ofConfig cfg)
          (fun _ => .response 200 (.obj [("data", .obj (("uuid", .str uu) :: ff))]))
          "create_file" (some (.obj (("name", .str nm) :: extra)))
        = .ok
          ( { body := .obj
                [ ("success", .bool true)
                , ("message", .str ("Created file \"" ++ nm ++ "\" (UUID: " ++ uu ++ ")"))
                , ("file", .obj (("uuid", .str uu) :: ff)) ]
            , isError := false }
          , [ { method := .post
              , url := cfg.apiUrl ++ "/file"
              , headers := [ ("Authorization", "Bearer " ++ cfg.apiToken)
                           , ("Content-Type", "application/json")
                           , ("Accept", "application/json") ]
              , body := some (.obj (("name", .str nm) :: extra))
              , params := none } ] ) := by
  intro cfg nm uu extra ff
  simp [handleCallTool, dispatchCase, caseCreateFile, withCall,
        StellifyClient.createFile, StellifyClient.exec, StellifyClient.ofConfig,
        axiosExec, dataOrSelf, JsValue.dotThrow, JsValue.field, jsOr,
        JsValue.truthy, toEnvelope, mkSuccess, jsToString_str, List.lookup,
        Bind.bind, Except.bind, Functor.map, Except.map, Except.instMonad,
        Pure.pure, Except.pure]
